import Mathlib

/-!
Verification of the bidops-ai document-ingestion pipeline against its
specification.  The parser implementations live in
`docs/TECHNICAL_SPECIFICATION.md` (`parsers/pdf_parser.py`,
`parsers/cad_parser.py`, `parsers/ifc_parser.py`); they are embedded
shallowly below.  Python strings are modelled as `List Char`, Python dicts
with literal keys as association lists, and external effects (OCR engine,
converter subprocess, DXF reader) as explicit inputs.  Components whose
implementation is absent from the repository (the ingestion orchestrator,
whose `ingest_folder` is a stub, the chunker and the spreadsheet parser)
are modelled from the specification and marked as such in their doc
comments.
-/

namespace BidOps

/-- Python strings are modelled as lists of characters. -/
abbrev Str := List Char

/-- The characters removed by Python's `str.strip()` with no argument. -/
def pyWhitespace (c : Char) : Bool :=
  c == ' ' || c == '\t' || c == '\n' || c == '\r' || c == '\x0b' || c == '\x0c'

/-- Python `s.strip()`: drop leading and trailing whitespace. -/
def pyStrip (s : Str) : Str :=
  ((s.dropWhile pyWhitespace).reverse.dropWhile pyWhitespace).reverse

/-- Python `sep.join(parts)`. -/
def pyJoin (sep : Str) : List Str → Str
  | [] => []
  | [x] => x
  | x :: y :: xs => x ++ sep ++ pyJoin sep (y :: xs)

/-- Python `s.lower()` (ASCII case folding suffices for the tags involved). -/
def pyLower (s : Str) : Str := s.map Char.toLower

/-- Does `p` start the list `s`?  Used to model Python's `in` on strings. -/
def leadsWith : Str → Str → Bool
  | [], _ => true
  | _ :: _, [] => false
  | a :: p, b :: s => a == b && leadsWith p s

/-- Python `pat in s` for strings: `pat` occurs contiguously in `s`. -/
def containsSeq (s pat : Str) : Bool :=
  match s with
  | [] => leadsWith pat []
  | _ :: rest => leadsWith pat s || containsSeq rest pat

/-- Decimal rendering of a natural number, as in a Python f-string. -/
def natStr (n : Nat) : Str := Nat.toDigits 10 n

/-- A Python value stored in a metadata dict (`None`, `str`, `int`,
`list`, a dict with literal keys, or a string-keyed dict of strings). -/
inductive MVal where
  | null
  | s (v : Str)
  | n (v : Nat)
  | list (vs : List MVal)
  | pdict (kvs : List (String × MVal))
  | pairs (kvs : List (Str × Str))

/-- Lookup in a literal-keyed Python dict (`d[k]` / `d.get(k)` as Option). -/
def dictGet (d : List (String × MVal)) (k : String) : Option MVal :=
  (d.find? (fun kv => kv.1 == k)).map (fun kv => kv.2)

/-- Python `d.get(k)`: `None` when the key is absent. -/
def dictGetD (d : List (String × MVal)) (k : String) : MVal :=
  (dictGet d k).getD MVal.null

/-- `parsers/base.py` `ParsedContent`: text, metadata and the optional
per-page texts, tables and images (each defaulting to `None`). -/
structure ParsedContent where
  text : Str
  metadata : List (String × MVal)
  pages : Option (List Str) := Option.none
  tables : Option (List MVal) := Option.none
  images : Option (List Str) := Option.none

/-! ### PDF parser (`parsers/pdf_parser.py`)

A PDF file opened with `fitz` is abstracted by the page texts
(`page.get_text("text")`) and the per-page extracted tables
(`page.find_tables()` / `tab.extract()`), plus the raw metadata dict.
The OCR engine (`pytesseract` on the rasterized pages produced by
`pdf2image.convert_from_path`) is an oracle `tess` giving the OCR text of
each page image. -/

/-- One page of a PDF document, as seen by `PDFParser.parse`. -/
structure PDFPage where
  text : Str
  tables : List MVal

/-- A PDF file: its pages and its raw `doc.metadata` dict. -/
structure PDFDoc where
  pages : List PDFPage
  meta : List (String × MVal)

/-- The `f"[Page {page_num + 1}]\n"` marker prepended to a page's text. -/
def pageMarker (pageNum : Nat) : Str :=
  "[Page ".toList ++ natStr (pageNum + 1) ++ "]\n".toList

/-- The `pages` list built by the native extraction loop. -/
def pdfNativePages (doc : PDFDoc) : List Str := doc.pages.map (fun p => p.text)

/-- The `full_text` list built by the native extraction loop. -/
def pdfNativeFullText (doc : PDFDoc) : List Str :=
  doc.pages.enum.map (fun pr => pageMarker pr.1 ++ pr.2.text)

/-- The `tables` list built by the native extraction loop:
`{"page": page_num + 1, "data": tab.extract()}` per found table. -/
def pdfNativeTables (doc : PDFDoc) : List MVal :=
  doc.pages.enum.flatMap (fun pr =>
    pr.2.tables.map (fun d => MVal.pdict [("page", MVal.n (pr.1 + 1)), ("data", d)]))

/-- `combined_text = "\n".join(full_text)` before the OCR check. -/
def pdfCombinedText (doc : PDFDoc) : Str :=
  pyJoin "\n".toList (pdfNativeFullText doc)

/-- The scanned-PDF threshold in `if len(combined_text.strip()) < 100`. -/
def ocrThreshold : Nat := 100

/-- `PDFParser._ocr_pdf`: rasterize each page and concatenate
`f"[Page {i + 1}]\n{text}"` joined by newlines, where `text` is the OCR
engine's output for page `i`. -/
def ocrPdf (doc : PDFDoc) (tess : Nat → Str) : Str :=
  pyJoin "\n".toList (doc.pages.enum.map (fun pr => pageMarker pr.1 ++ tess pr.1))

/-- `PDFParser.extract_metadata`: the six fields copied from
`doc.metadata` plus `page_count = len(doc)`. -/
def extractPdfMetadata (doc : PDFDoc) : List (String × MVal) :=
  [("title", dictGetD doc.meta "title"),
   ("author", dictGetD doc.meta "author"),
   ("subject", dictGetD doc.meta "subject"),
   ("creator", dictGetD doc.meta "creator"),
   ("creation_date", dictGetD doc.meta "creationDate"),
   ("page_count", MVal.n doc.pages.length)]

/-- Result of `PDFParser.parse` instrumented with the number of
`_ocr_pdf` invocations performed. -/
structure PDFParseResult where
  content : ParsedContent
  ocrCalls : Nat

/-- `PDFParser.parse`: native per-page extraction, then the OCR fallback
when `len(combined_text.strip()) < 100`. -/
def pdfParse (doc : PDFDoc) (tess : Nat → Str) : PDFParseResult :=
  let pages := pdfNativePages doc
  let tables := pdfNativeTables doc
  let combined := pdfCombinedText doc
  if (pyStrip combined).length < ocrThreshold then
    { content := { text := ocrPdf doc tess
                 , metadata := extractPdfMetadata doc
                 , pages := some pages
                 , tables := some tables }
    , ocrCalls := 1 }
  else
    { content := { text := combined
                 , metadata := extractPdfMetadata doc
                 , pages := some pages
                 , tables := some tables }
    , ocrCalls := 0 }

/-! ### Claims C1 and C10: the OCR fallback -/

/-- A one-page PDF whose native text is 85 letters followed by 20 trailing
spaces: the aggregate native text (with its page marker) has 114
characters, at or above the threshold of 100, yet its whitespace-stripped
length is 94, so the code's `len(combined_text.strip()) < 100` check fires
the OCR fallback. -/
def paddedPage : PDFPage :=
  { text := List.replicate 85 'a' ++ List.replicate 20 ' ', tables := [] }

/-- The PDF document refuting claim C1 as stated. -/
def paddedDoc : PDFDoc := { pages := [paddedPage], meta := [] }

/-- OCR oracle used for the C1 counterexample. -/
def paddedTess : Nat → Str := fun _ => "OCR RESULT".toList

/-- C1 counterexample: a PDF whose natively extracted aggregate text
meets the threshold (114 ≥ 100 characters) on which the OCR fallback
nevertheless fires (because the check strips whitespace first), and the
returned text is not the native extraction. -/
theorem ocr_threshold_counterexample :
    ocrThreshold ≤ (pdfCombinedText paddedDoc).length
    ∧ (pdfParse paddedDoc paddedTess).ocrCalls = 1
    ∧ (pdfParse paddedDoc paddedTess).content.text ≠ pdfCombinedText paddedDoc := by
  refine ⟨by decide, by decide, by decide⟩

/-- C1 (amended): the OCR fallback in `PDFParser.parse` is invoked if and
only if the length of the whitespace-stripped natively extracted aggregate
text is below the configured threshold (100); for any input whose stripped
native text meets or exceeds the threshold, zero OCR-stage calls occur and
the returned text is the native extraction. -/
theorem ocr_fires_iff_stripped_below_threshold (doc : PDFDoc) (tess : Nat → Str) :
    ((pdfParse doc tess).ocrCalls ≠ 0
        ↔ (pyStrip (pdfCombinedText doc)).length < ocrThreshold)
    ∧ (ocrThreshold ≤ (pyStrip (pdfCombinedText doc)).length →
        (pdfParse doc tess).ocrCalls = 0
        ∧ (pdfParse doc tess).content.text = pdfCombinedText doc) := by
  by_cases h : (pyStrip (pdfCombinedText doc)).length < ocrThreshold <;>
    simp [pdfParse, h]

/-- A one-page PDF with 120 characters of native text: well above the
threshold even after stripping. -/
def abundantDoc : PDFDoc :=
  { pages := [{ text := List.replicate 120 'a', tables := [] }], meta := [] }

set_option maxRecDepth 10000 in
/-- C1 witness: on a PDF with abundant native text the theorem yields
zero OCR calls and the native text as result. -/
theorem ocr_fires_iff_stripped_witness :
    (pdfParse abundantDoc (fun _ => [])).ocrCalls = 0
    ∧ (pdfParse abundantDoc (fun _ => [])).content.text = pdfCombinedText abundantDoc :=
  (ocr_fires_iff_stripped_below_threshold abundantDoc (fun _ => [])).2 (by decide)

/-- C10: when the OCR fallback fires, only the `text` field of the
returned `ParsedContent` is replaced by OCR output; the `pages` and
`tables` fields still hold the native (sub-threshold) extraction. -/
theorem ocr_preserves_native_pages_tables (doc : PDFDoc) (tess : Nat → Str)
    (h : (pyStrip (pdfCombinedText doc)).length < ocrThreshold) :
    (pdfParse doc tess).content.pages = some (pdfNativePages doc)
    ∧ (pdfParse doc tess).content.tables = some (pdfNativeTables doc)
    ∧ (pdfParse doc tess).content.text = ocrPdf doc tess := by
  simp [pdfParse, h]

/-- A scanned one-page PDF: no native text at all. -/
def scannedDoc : PDFDoc := { pages := [{ text := [], tables := [] }], meta := [] }

/-- OCR oracle for the C10 witness. -/
def scannedTess : Nat → Str := fun _ => "SCANNED BODY".toList

/-- C10 witness: on a scanned PDF the OCR path keeps the native pages and
tables and returns the OCR text. -/
theorem ocr_preserves_native_pages_tables_witness :
    (pdfParse scannedDoc scannedTess).content.pages = some (pdfNativePages scannedDoc)
    ∧ (pdfParse scannedDoc scannedTess).content.tables = some (pdfNativeTables scannedDoc)
    ∧ (pdfParse scannedDoc scannedTess).content.text = ocrPdf scannedDoc scannedTess :=
  ocr_preserves_native_pages_tables scannedDoc scannedTess (by decide)

/-! ### CAD parser (`parsers/cad_parser.py`)

`CADParser.parse` converts `.dwg` inputs through the external ODA File
Converter (`_convert_dwg_to_dxf`: `tempfile.mkdtemp()` then
`subprocess.run(cmd, check=True, capture_output=True)`) and then reads the
(possibly converted) file with `ezdxf.readfile`.  The external world is an
explicit environment: the outcome of the subprocess run and the outcomes
of reading either the converted or the original file as DXF.  The parse
function is instrumented with counters for converter invocations,
`ezdxf.readfile` (stage-two) invocations, and temporary directories
created and removed. -/

/-- Python exceptions relevant to the CAD and IFC parsing paths. -/
inductive PyErr where
  | fileNotFoundError
  | calledProcessError
  | timeoutExpired
  | dxfStructureError
  | indexError
deriving DecidableEq

/-- A block attribute (`attrib.dxf.tag` / `attrib.dxf.text`). -/
structure DXFAttrib where
  tag : Str
  text : Str

/-- An INSERT entity: block name and attributes. -/
structure DXFInsert where
  name : Str
  attribs : List DXFAttrib

/-- A DXF document as read by `ezdxf.readfile`: layer names, the texts of
the TEXT/MTEXT entities, the DIMENSION entities (measurement rendering
when `get_measurement` exists), and the INSERT entities. -/
structure DXFDoc where
  layers : List Str
  texts : List Str
  dimensions : List (Option Str)
  inserts : List DXFInsert

/-- The substrings whose presence in a lowered attribute tag marks it as
a title-block field. -/
def titleTagKeys : List Str :=
  ["title".toList, "dwg".toList, "rev".toList, "date".toList, "scale".toList]

/-- `any(k in tag.lower() for k in ['title', 'dwg', 'rev', 'date', 'scale'])`. -/
def isTitleTag (tag : Str) : Bool :=
  titleTagKeys.any (fun k => containsSeq (pyLower tag) k)

/-- The `f"Dimension: {value}"` line for a measured DIMENSION entity. -/
def dimensionLine (m : Str) : Str := "Dimension: ".toList ++ m

/-- The `f"{tag}: {value}"` line for a block attribute. -/
def attribLine (a : DXFAttrib) : Str := a.tag ++ ": ".toList ++ a.text

/-- The DXF extraction body of `CADParser.parse`: text entities, then
dimension lines, then per-insert attribute lines, with layers, block
names and detected title-block pairs in metadata. -/
def cadExtract (doc : DXFDoc) : ParsedContent :=
  let dimLines := doc.dimensions.filterMap (fun m => m.map dimensionLine)
  let attribLines := doc.inserts.flatMap (fun ins => ins.attribs.map attribLine)
  let titleBlock :=
    ((doc.inserts.flatMap (fun ins => ins.attribs)).filter
        (fun a => isTitleTag a.tag)).map (fun a => (a.tag, a.text))
  { text := pyJoin "\n".toList (doc.texts ++ dimLines ++ attribLines)
  , metadata := [("layers", MVal.list (doc.layers.map MVal.s)),
                 ("blocks", MVal.list ((doc.inserts.map (fun i => i.name)).map MVal.s)),
                 ("title_block", MVal.pairs titleBlock)] }

/-- The `subprocess.run` invocation as written in `_convert_dwg_to_dxf`:
argv, `check=True`, `capture_output=True`, and no timeout argument. -/
structure SubprocessInvocation where
  argv : List Str
  check : Bool
  captureOutput : Bool
  timeout : Option Nat

/-- The exact converter invocation built by `_convert_dwg_to_dxf`:
`[converter_path, input_dir, output_dir, "ACAD2018", "DXF", "0", "1"]`
run with `check=True` and `capture_output=True` — and no `timeout=`
keyword. -/
def odaConverterInvocation (converterPath inputDir outputDir : Str) : SubprocessInvocation :=
  { argv := [converterPath, inputDir, outputDir,
             "ACAD2018".toList, "DXF".toList, "0".toList, "1".toList]
  , check := true
  , captureOutput := true
  , timeout := Option.none }

/-- The external environment a `CADParser.parse` call runs in: the input
file's extension (`Path(file_path).suffix`), the outcome of the converter
subprocess, and the outcomes of `ezdxf.readfile` on the converted file
and on the original file. -/
structure CADEnv where
  suffix : Str
  subprocessResult : Except PyErr Unit
  convertedRead : Except PyErr DXFDoc
  directRead : Except PyErr DXFDoc

/-- Result of `CADParser.parse` instrumented with counters for external
effects: converter subprocess invocations, `ezdxf.readfile` (stage-two
exchange-format parser) invocations, and temporary directories created by
`tempfile.mkdtemp()` and removed again. -/
structure CADTrace where
  result : Except PyErr ParsedContent
  converterCalls : Nat
  readfileCalls : Nat
  tmpDirsCreated : Nat
  tmpDirsRemoved : Nat

/-- `CADParser.parse`: stage one converts `.dwg` files via the external
converter (raising on failure — `mkdtemp` has already run, and nothing in
`_convert_dwg_to_dxf` or `parse` removes the directory); stage two reads
the DXF file and extracts.  Non-`.dwg` suffixes go directly to stage
two. -/
def cadParse (env : CADEnv) : CADTrace :=
  if pyLower env.suffix == ".dwg".toList then
    match env.subprocessResult with
    | Except.error e =>
        { result := Except.error e, converterCalls := 1, readfileCalls := 0
        , tmpDirsCreated := 1, tmpDirsRemoved := 0 }
    | Except.ok _ =>
        match env.convertedRead with
        | Except.error e =>
            { result := Except.error e, converterCalls := 1, readfileCalls := 1
            , tmpDirsCreated := 1, tmpDirsRemoved := 0 }
        | Except.ok d =>
            { result := Except.ok (cadExtract d), converterCalls := 1, readfileCalls := 1
            , tmpDirsCreated := 1, tmpDirsRemoved := 0 }
  else
    match env.directRead with
    | Except.error e =>
        { result := Except.error e, converterCalls := 0, readfileCalls := 1
        , tmpDirsCreated := 0, tmpDirsRemoved := 0 }
    | Except.ok d =>
        { result := Except.ok (cadExtract d), converterCalls := 0, readfileCalls := 1
        , tmpDirsCreated := 0, tmpDirsRemoved := 0 }

/-- Document lifecycle states from `models/document.py` (`DocumentStatus`). -/
inductive DocStatus where
  | pending
  | processing
  | indexed
  | failed
deriving DecidableEq

/-- Modelled from the spec: the failure reason the Ingestion Orchestrator
stores for a CAD-path exception — converter-stage errors (missing
executable, timeout, non-zero exit under `check=True`) become
`conversion_failed`, unreadable DXF input becomes `corrupt_input`.  The
orchestrator itself (`DocumentService.ingest_folder`) is only a stub in
the source. -/
def cadFailReason : PyErr → String
  | PyErr.fileNotFoundError => "conversion_failed"
  | PyErr.calledProcessError => "conversion_failed"
  | PyErr.timeoutExpired => "conversion_failed"
  | PyErr.dxfStructureError => "corrupt_input"
  | PyErr.indexError => "corrupt_input"

/-- Modelled from the spec: the Orchestrator boundary around one CAD
document — it catches the parser's exception and converts it into a
stored status and reason on that Document (`DocumentService.ingest_folder`
is a stub in the source).  Returns the document's final status, its
stored reason, and the parse trace. -/
def ingestCadDocument (env : CADEnv) : DocStatus × Option String × CADTrace :=
  let tr := cadParse env
  match tr.result with
  | Except.ok _ => (DocStatus.indexed, Option.none, tr)
  | Except.error e => (DocStatus.failed, some (cadFailReason e), tr)

/-! ### Claims C2, C4, C5 and C9: the CAD conversion stage -/

/-- C2: for every CAD drawing input, if stage one (the external DWG→DXF
conversion) fails for any reason — converter executable missing, timeout,
or non-zero exit status — the Document is marked failed with reason
`conversion_failed` and the exchange-format (DXF) parser is never called
on that input (zero stage-two calls). -/
theorem cad_stage_one_failure_marks_conversion_failed (env : CADEnv) (e : PyErr)
    (hsuf : pyLower env.suffix = ".dwg".toList)
    (hrun : env.subprocessResult = Except.error e)
    (he : e = PyErr.fileNotFoundError ∨ e = PyErr.timeoutExpired
          ∨ e = PyErr.calledProcessError) :
    (ingestCadDocument env).1 = DocStatus.failed
    ∧ (ingestCadDocument env).2.1 = some "conversion_failed"
    ∧ (ingestCadDocument env).2.2.readfileCalls = 0 := by
  rcases he with rfl | rfl | rfl <;>
    simp [ingestCadDocument, cadParse, hsuf, hrun, cadFailReason]

/-- A `.dwg` ingestion environment in which the converter executable is
missing: the subprocess raises `FileNotFoundError`. -/
def missingConverterEnv : CADEnv :=
  { suffix := ".dwg".toList
  , subprocessResult := Except.error PyErr.fileNotFoundError
  , convertedRead := Except.error PyErr.dxfStructureError
  , directRead := Except.error PyErr.dxfStructureError }

/-- C2 witness: a simulated missing CAD converter yields a
`failed`/`conversion_failed` Document with zero calls into the
exchange-format parser. -/
theorem cad_stage_one_failure_witness :
    (ingestCadDocument missingConverterEnv).1 = DocStatus.failed
    ∧ (ingestCadDocument missingConverterEnv).2.1 = some "conversion_failed"
    ∧ (ingestCadDocument missingConverterEnv).2.2.readfileCalls = 0 :=
  cad_stage_one_failure_marks_conversion_failed missingConverterEnv
    PyErr.fileNotFoundError (by decide) rfl (Or.inl rfl)

/-- C4 counterexample: the converter subprocess invocation built by
`_convert_dwg_to_dxf` — here at a concrete converter path and directory
pair — passes no `timeout` argument to `subprocess.run`, refuting the
claim that every invocation carries an explicit timeout bound. -/
theorem converter_no_timeout_counterexample :
    (odaConverterInvocation "ODAFileConverter.exe".toList
        "in".toList "out".toList).timeout = Option.none := rfl

/-- C4 (amended): no invocation of the external CAD converter subprocess
carries a timeout bound — `subprocess.run` is called with `check=True`
and `capture_output=True` but no `timeout` argument, whatever the
converter path and directories, so the wait on the external OS process is
unbounded. -/
theorem converter_invocation_never_has_timeout (c i o : Str) :
    (odaConverterInvocation c i o).timeout = Option.none
    ∧ (odaConverterInvocation c i o).check = true :=
  ⟨rfl, rfl⟩

/-- A DXF document with one layer and one text entity, used for
successful-conversion scenarios. -/
def sampleDXF : DXFDoc :=
  { layers := ["0".toList], texts := ["PLAN".toList]
  , dimensions := [], inserts := [] }

/-- A `.dwg` ingestion environment in which conversion and stage-two
parsing both succeed. -/
def convertedOkEnv : CADEnv :=
  { suffix := ".dwg".toList
  , subprocessResult := Except.ok ()
  , convertedRead := Except.ok sampleDXF
  , directRead := Except.error PyErr.dxfStructureError }

/-- C5 counterexample: on a successful conversion the parser creates one
temporary output directory (`tempfile.mkdtemp()`) and removes zero
directories — the claim that temporary directories are removed on every
exit path fails already on the successful path. -/
theorem temp_dir_not_removed_counterexample :
    (cadParse convertedOkEnv).result = Except.ok (cadExtract sampleDXF)
    ∧ (cadParse convertedOkEnv).tmpDirsCreated = 1
    ∧ (cadParse convertedOkEnv).tmpDirsRemoved = 0 :=
  ⟨rfl, rfl, rfl⟩

/-- C5 (amended): the temporary output directory created for the
converter subprocess is never removed by the parser on any exit path —
`_convert_dwg_to_dxf` calls `tempfile.mkdtemp()` and neither it nor
`parse` deletes the directory, on success, on converter failure, or on a
stage-two exception. -/
theorem parser_never_removes_temp_dirs (env : CADEnv) :
    (cadParse env).tmpDirsRemoved = 0 := by
  unfold cadParse
  split
  · split
    · rfl
    · split <;> rfl
  · split <;> rfl

/-- C9: for every input file whose extension is `.dxf` (case-insensitive,
and in fact any non-`.dwg` extension), `CADParser.parse` never invokes
the external converter: stage one is skipped and the file is handed
directly to the exchange-format parser (`ezdxf.readfile` on the original
path, one stage-two call). -/
theorem dxf_skips_converter (env : CADEnv)
    (hsuf : pyLower env.suffix = ".dxf".toList) :
    (cadParse env).converterCalls = 0
    ∧ (cadParse env).readfileCalls = 1
    ∧ (cadParse env).result = env.directRead.map cadExtract := by
  have hc : (pyLower env.suffix == ".dwg".toList) = false := by
    rw [hsuf]; decide
  unfold cadParse
  rw [hc]
  cases h : env.directRead <;> simp [h, Except.map]

/-- A `.DXF` (upper-case extension) environment whose direct read
succeeds. -/
def directDxfEnv : CADEnv :=
  { suffix := ".DXF".toList
  , subprocessResult := Except.ok ()
  , convertedRead := Except.error PyErr.dxfStructureError
  , directRead := Except.ok sampleDXF }

/-- C9 witness: an upper-case `.DXF` file is parsed directly, with zero
converter invocations. -/
theorem dxf_skips_converter_witness :
    (cadParse directDxfEnv).converterCalls = 0
    ∧ (cadParse directDxfEnv).readfileCalls = 1
    ∧ (cadParse directDxfEnv).result = directDxfEnv.directRead.map cadExtract :=
  dxf_skips_converter directDxfEnv (by decide)

/-! ### Claim C3: content-hash deduplication

`DocumentService.ingest_folder` is only a stub (`pass`) in the source, so
the Content Hasher / Deduplicator behaviour is modelled from the spec. -/

/-- A Document as the deduplicator sees it: project id, content digest
(`content_hash` in `models/document.py`) and the supersession flag. -/
structure DedupDoc where
  project : Nat
  digest : Str
  superseded : Bool

/-- The Orchestrator's state: the Document store plus counters for the
parse, chunk and embed work performed. -/
structure IngestState where
  docs : List DedupDoc
  parseCalls : Nat
  chunkCalls : Nat
  embedCalls : Nat

/-- The initial state: no documents, no work performed. -/
def emptyIngestState : IngestState :=
  { docs := [], parseCalls := 0, chunkCalls := 0, embedCalls := 0 }

/-- Does a Document match (live, same project, same digest)? -/
def liveMatch (p : Nat) (g : Str) (d : DedupDoc) : Bool :=
  !d.superseded && d.project == p && d.digest == g

/-- Modelled from the spec: the dedup lookup of §4.1 — given a digest and
project id, reports whether a live Document already has it. -/
def hasLiveDigest (st : IngestState) (p : Nat) (g : Str) : Bool :=
  st.docs.any (liveMatch p g)

/-- Modelled from the spec: one upload into a project.  The digest of the
bytes is computed first; if a live Document with the same
(project, digest) exists the upload is skipped with no parse/chunk/embed
work ("invoked before any parser runs"), otherwise a live Document is
created and the pipeline work happens.  The digest function is an
arbitrary parameter (SHA-256 in the source's data model). -/
def ingestUpload (hash : Str → Str) (st : IngestState) (p : Nat) (bytes : Str) :
    IngestState :=
  let g := hash bytes
  if hasLiveDigest st p g then st
  else
    { docs := st.docs ++ [{ project := p, digest := g, superseded := false }]
    , parseCalls := st.parseCalls + 1
    , chunkCalls := st.chunkCalls + 1
    , embedCalls := st.embedCalls + 1 }

/-- A sequence of uploads, each a (project, bytes) pair. -/
def ingestSequence (hash : Str → Str) (st : IngestState) :
    List (Nat × Str) → IngestState
  | [] => st
  | u :: us => ingestSequence hash (ingestUpload hash st u.1 u.2) us

/-- The number of live Documents with a given (project, digest). -/
def liveCount (st : IngestState) (p : Nat) (g : Str) : Nat :=
  st.docs.countP (liveMatch p g)

/-- One upload preserves the at-most-one-live-Document invariant. -/
lemma liveCount_ingestUpload_le (hash : Str → Str) (st : IngestState)
    (p : Nat) (b : Str) (p' : Nat) (g' : Str)
    (h : liveCount st p' g' ≤ 1) :
    liveCount (ingestUpload hash st p b) p' g' ≤ 1 := by
  unfold ingestUpload
  by_cases hl : hasLiveDigest st p (hash b)
  · simpa [hl] using h
  · simp only [hl, if_false, Bool.false_eq_true, liveCount, List.countP_append]
    by_cases hm : liveMatch p' g' { project := p, digest := hash b, superseded := false }
    · have hp : p = p' ∧ hash b = g' := by
        simp [liveMatch] at hm
        exact hm
      have hz : st.docs.countP (liveMatch p' g') = 0 := by
        rw [List.countP_eq_zero]
        intro a ha hma
        apply hl
        rw [hasLiveDigest, List.any_eq_true]
        exact ⟨a, ha, by rw [hp.1, hp.2]; exact hma⟩
      simp [hz, List.countP_cons, hm]
    · simp only [List.countP_cons, List.countP_nil, hm]
      simpa using h

/-- A whole upload sequence preserves the invariant. -/
lemma liveCount_ingestSequence_le (hash : Str → Str) (ups : List (Nat × Str))
    (st : IngestState) (p : Nat) (g : Str)
    (h : liveCount st p g ≤ 1) :
    liveCount (ingestSequence hash st ups) p g ≤ 1 := by
  induction ups generalizing st with
  | nil => exact h
  | cons u us ih =>
    exact ih _ (liveCount_ingestUpload_le hash st u.1 u.2 p g h)

/-- C3: after any sequence of ingestions starting from an empty store, at
most one non-superseded Document exists per (project, digest); and a
second upload of byte-identical content to the same project leaves the
state unchanged — in particular it performs no parsing, chunking or
embedding work, the dedup check short-circuiting before any parser
runs. -/
theorem dedup_invariant_and_idempotent (hash : Str → Str) (ups : List (Nat × Str))
    (p : Nat) (g : Str) (st : IngestState) (bytes : Str) :
    liveCount (ingestSequence hash emptyIngestState ups) p g ≤ 1
    ∧ ingestUpload hash (ingestUpload hash st p bytes) p bytes
        = ingestUpload hash st p bytes := by
  constructor
  · exact liveCount_ingestSequence_le hash ups emptyIngestState p g
      (by simp [liveCount, emptyIngestState])
  · have hdef : ∀ (st' : IngestState), ingestUpload hash st' p bytes =
        if hasLiveDigest st' p (hash bytes) then st'
        else { docs := st'.docs ++ [{ project := p, digest := hash bytes, superseded := false }]
             , parseCalls := st'.parseCalls + 1, chunkCalls := st'.chunkCalls + 1
             , embedCalls := st'.embedCalls + 1 } := fun _ => rfl
    have hfix : hasLiveDigest (ingestUpload hash st p bytes) p (hash bytes) = true := by
      rw [hdef st]
      by_cases hl : hasLiveDigest st p (hash bytes) = true
      · rw [if_pos hl]; exact hl
      · rw [if_neg hl]
        show (st.docs ++ [({ project := p, digest := hash bytes, superseded := false } : DedupDoc)]).any
            (liveMatch p (hash bytes)) = true
        have hnew : liveMatch p (hash bytes)
            { project := p, digest := hash bytes, superseded := false } = true := by
          simp [liveMatch]
        simp [List.any_append, hnew]
    rw [hdef (ingestUpload hash st p bytes), if_pos hfix]

/-! ### Claim C6: the chunker

No chunker implementation is present in the source — the ingestion
pipeline diagram in the technical specification fixes only
`RecursiveCharacterTextSplitter`, chunk size 1000 and overlap 200 — so
the chunker is modelled from the spec. -/

/-- Chunk size fixed by the ingestion pipeline diagram. -/
def chunkSize : Nat := 1000

/-- Chunk overlap fixed by the ingestion pipeline diagram. -/
def chunkOverlap : Nat := 200

/-- The stride between consecutive chunk start offsets. -/
def chunkStep : Nat := chunkSize - chunkOverlap

/-- Modelled from the spec: the Chunker of §4.5 — an ordered, finite
sequence of overlapping fixed-size windows (size 1000, overlap 200): each
window takes `chunkSize` characters and the next window starts
`chunkStep` characters later; the final window is whatever remains. -/
def chunkText (t : Str) : List Str :=
  if h : t.length ≤ chunkSize then [t]
  else t.take chunkSize :: chunkText (t.drop chunkStep)
termination_by t.length
decreasing_by
  simp only [List.length_drop]
  simp only [not_le] at h
  have : chunkSize < t.length := by simpa using h
  simp only [chunkStep, chunkSize, chunkOverlap] at *
  omega

/-- The chunker never returns an empty chunk list. -/
lemma chunkText_ne_nil (t : Str) : chunkText t ≠ [] := by
  unfold chunkText
  split <;> simp

/-- Concatenation of the non-overlapping portions of the chunks, in
ordinal order: every chunk but the last contributes its first
`chunkStep` characters (the rest is repeated at the head of the next
chunk), the last chunk contributes itself whole. -/
def chunkJoin : List Str → Str
  | [] => []
  | [c] => c
  | c :: c2 :: cs => c.take chunkStep ++ chunkJoin (c2 :: cs)

/-- Reconstruction: concatenating the non-overlapping chunk portions in
order yields back the source text. -/
lemma chunkJoin_chunkText (t : Str) : chunkJoin (chunkText t) = t := by
  unfold chunkText
  split
  · rfl
  · rename_i h
    obtain ⟨c2, cs, hcs⟩ :=
      List.exists_cons_of_ne_nil (chunkText_ne_nil (t.drop chunkStep))
    rw [hcs]
    simp only [chunkJoin]
    rw [← hcs, chunkJoin_chunkText (t.drop chunkStep), List.take_take]
    have hmin : min chunkStep chunkSize = chunkStep := by decide
    rw [hmin, List.take_append_drop]
termination_by t.length
decreasing_by
  simp only [List.length_drop]
  simp only [chunkStep, chunkSize, chunkOverlap] at *
  omega

/-- C6: chunking is deterministic — two runs on identical text yield
identical chunk boundaries — and concatenating the non-overlapping
portions of the chunks in ordinal order reconstructs exactly the source
text. -/
theorem chunking_deterministic_and_reconstructs (t t' : Str) (h : t = t') :
    chunkText t = chunkText t' ∧ chunkJoin (chunkText t) = t :=
  ⟨by rw [h], chunkJoin_chunkText t⟩

/-- C6 witness: determinism and reconstruction on a concrete text. -/
theorem chunking_deterministic_and_reconstructs_witness :
    chunkText "bidops tender corpus".toList = chunkText "bidops tender corpus".toList
    ∧ chunkJoin (chunkText "bidops tender corpus".toList) = "bidops tender corpus".toList :=
  chunking_deterministic_and_reconstructs _ _ rfl

/-! ### Claim C7: batch failure isolation

`DocumentService.ingest_folder` is a stub in the source, so the
Orchestrator boundary is modelled from the spec: parser exceptions are
caught per document and converted to a stored status and reason; nothing
propagates past the batch call except an aggregate failure count. -/

/-- Modelled from the spec: one file of a folder batch, abstracted by
what its per-document pipeline does — the Format Detector either selects
a parser (which returns content or raises, the exception message becoming
the stored reason) or finds the format unsupported. -/
inductive BatchFile where
  | supported (outcome : Except String ParsedContent)
  | unsupported

/-- The stored outcome on one Document: lifecycle status and the
`error_message` column. -/
structure BatchDocRecord where
  status : DocStatus
  errorMessage : Option String

/-- Modelled from the spec: the Orchestrator boundary around a single
file — a parser exception is caught and stored as `failed` plus reason;
an unsupported format is stored as `failed`/`unsupported_format`; success
is stored as `indexed`.  Total: no exception escapes. -/
def ingestFile : BatchFile → BatchDocRecord
  | BatchFile.supported (Except.ok _) =>
      { status := DocStatus.indexed, errorMessage := Option.none }
  | BatchFile.supported (Except.error msg) =>
      { status := DocStatus.failed, errorMessage := some msg }
  | BatchFile.unsupported =>
      { status := DocStatus.failed, errorMessage := some "unsupported_format" }

/-- Is the stored record a failure? -/
def isFailedRecord (r : BatchDocRecord) : Bool :=
  match r.status with
  | DocStatus.failed => true
  | _ => false

/-- What a folder batch returns: the per-document records and the
aggregate failure count — never an exception. -/
structure BatchResult where
  records : List BatchDocRecord
  failureCount : Nat

/-- Modelled from the spec: `ingest_folder` walks the whole list, ingests
every file through the per-document boundary, and aggregates the failure
count. -/
def ingestFolderBatch : List BatchFile → BatchResult
  | [] => { records := [], failureCount := 0 }
  | f :: fs =>
    let r := ingestFile f
    let rest := ingestFolderBatch fs
    { records := r :: rest.records
    , failureCount := (if isFailedRecord r then 1 else 0) + rest.failureCount }

/-- C7: for every folder batch, every file — bad or good — yields exactly
one stored record (the walk is never aborted and no exception escapes:
the batch is a total function into records plus an aggregate failure
count); the record at each position depends only on that one file; the
failure count aggregates exactly the failed records; and an unsupported
format marks just that one Document `failed`/`unsupported_format`. -/
theorem batch_isolation (files : List BatchFile) (i : Nat) :
    (ingestFolderBatch files).records.length = files.length
    ∧ (ingestFolderBatch files).records[i]? = (files[i]?).map ingestFile
    ∧ (ingestFolderBatch files).failureCount
        = files.countP (fun f => isFailedRecord (ingestFile f))
    ∧ ingestFile BatchFile.unsupported
        = { status := DocStatus.failed, errorMessage := some "unsupported_format" } := by
  refine ⟨?_, ?_, ?_, rfl⟩
  · induction files with
    | nil => rfl
    | cons f fs ih => simp [ingestFolderBatch, ih]
  · induction files generalizing i with
    | nil => simp [ingestFolderBatch]
    | cons f fs ih =>
      cases i with
      | zero => simp [ingestFolderBatch]
      | succ j => simpa [ingestFolderBatch] using ih j
  · induction files with
    | nil => rfl
    | cons f fs ih =>
      simp only [ingestFolderBatch, List.countP_cons, ih]
      cases hf : isFailedRecord (ingestFile f) <;> simp [hf] <;> omega

/-! ### IFC parser (`parsers/ifc_parser.py`) and spreadsheet parser

An IFC model opened with `ifcopenshell` is abstracted by its `IfcProject`
entities, its building elements (with type string, name, global id,
property sets and quantity sets) and its `IfcMaterial` names.
`ifc_file.by_type("IfcProject")[0]` raises `IndexError` when no project
entity exists. -/

/-- An `IfcProject` entity: `Name` and `Description` (possibly `None`). -/
structure IFCProjectEnt where
  name : Str
  description : MVal

/-- A building element: IFC type string, `Name`, `GlobalId`, the property
sets returned by `get_psets` and the quantity sets returned by
`get_qtos` (set name ↦ quantity name ↦ value). -/
structure IFCElement where
  ifcType : String
  name : Str
  globalId : Str
  psets : MVal
  qtos : List (Str × List (Str × MVal))

/-- An IFC file as seen by the parser. -/
structure IFCFile where
  projects : List IFCProjectEnt
  elements : List IFCElement
  materials : List Str

/-- The fixed allow-list of element types enumerated by `IFCParser.parse`. -/
def ifcElementTypes : List String :=
  ["IfcWall", "IfcSlab", "IfcBeam", "IfcColumn",
   "IfcDoor", "IfcWindow", "IfcPipeSegment", "IfcDuctSegment"]

/-- `ifc_file.by_type(t)` over the building elements. -/
def ifcByType (f : IFCFile) (t : String) : List IFCElement :=
  f.elements.filter (fun e => e.ifcType == t)

/-- The `elem_info` dict built per element. -/
def ifcElemInfo (t : String) (e : IFCElement) : MVal :=
  MVal.pdict [("type", MVal.s t.toList), ("name", MVal.s e.name),
              ("global_id", MVal.s e.globalId), ("properties", e.psets)]

/-- The flattened quantity records appended to `metadata["quantities"]`
for one element. -/
def ifcQuantities (e : IFCElement) : List MVal :=
  e.qtos.flatMap (fun qs => qs.2.map (fun q =>
    MVal.pdict [("element", MVal.s e.name), ("quantity_set", MVal.s qs.1),
                ("name", MVal.s q.1), ("value", q.2)]))

/-- `IFCParser.parse`: project header, allow-listed elements with their
property and quantity sets, and materials; raises `IndexError` when the
file has no `IfcProject`. -/
def ifcParse (f : IFCFile) : Except PyErr ParsedContent :=
  match f.projects with
  | [] => Except.error PyErr.indexError
  | project :: _ =>
    let typedElems :=
      ifcElementTypes.flatMap (fun t => (ifcByType f t).map (fun e => (t, e)))
    Except.ok
      { text := pyJoin "\n".toList
          (("Project: ".toList ++ project.name)
            :: (typedElems.map (fun te => te.1.toList ++ ": ".toList ++ te.2.name)
                ++ f.materials.map (fun m => "Material: ".toList ++ m)))
      , metadata :=
          [("project", MVal.pdict [("name", MVal.s project.name),
                                   ("description", project.description)]),
           ("elements", MVal.list (typedElems.map (fun te => ifcElemInfo te.1 te.2))),
           ("quantities", MVal.list (typedElems.flatMap (fun te => ifcQuantities te.2))),
           ("materials", MVal.list (f.materials.map MVal.s))] }

/-- A workbook as the spreadsheet parser sees it: the sheet-name-to-range
pairs and the extracted grid text. -/
structure Workbook where
  sheets : List (Str × Str)
  cellText : List Str

/-- Modelled from the spec: the spreadsheet parser (`xlsx_parser.py` in
the project layout) is absent from the source; per §4.3 it extracts the
grid text and "records a sheet-name-to-range map in metadata so consumers
can locate a quantities sheet without re-parsing". -/
def xlsxParse (wb : Workbook) : ParsedContent :=
  { text := pyJoin "\n".toList wb.cellText
  , metadata := [("sheet_map", MVal.pairs wb.sheets)] }

/-! ### Claim C8: parse output shape -/

/-- A well-formed DXF drawing (one default layer) that contains no text,
dimension or attribute entities. -/
def entityFreeDXF : DXFDoc :=
  { layers := ["0".toList], texts := [], dimensions := [], inserts := [] }

/-- Environment handing `entityFreeDXF` directly to the DXF parser. -/
def entityFreeEnv : CADEnv :=
  { suffix := ".dxf".toList
  , subprocessResult := Except.ok ()
  , convertedRead := Except.error PyErr.dxfStructureError
  , directRead := Except.ok entityFreeDXF }

/-- C8 counterexample: `CADParser.parse` succeeds on a well-formed DXF
drawing with no text-bearing entities and returns empty text, refuting
the claim that `parse` returns non-empty text on every well-formed input
of a supported format. -/
theorem parse_nonempty_text_counterexample :
    (cadParse entityFreeEnv).result = Except.ok (cadExtract entityFreeDXF)
    ∧ (cadExtract entityFreeDXF).text = [] :=
  ⟨rfl, rfl⟩

/-- Joining a list whose head is non-empty yields a non-empty string. -/
lemma pyJoin_cons_ne_nil (sep x : Str) (xs : List Str) (hx : x ≠ []) :
    pyJoin sep (x :: xs) ≠ [] := by
  cases xs <;> simp [pyJoin, hx]

/-- The PDF parser's returned metadata is `extract_metadata` on both the
native and the OCR path. -/
lemma pdfParse_metadata (doc : PDFDoc) (tess : Nat → Str) :
    (pdfParse doc tess).content.metadata = extractPdfMetadata doc := by
  by_cases h : (pyStrip (pdfCombinedText doc)).length < ocrThreshold <;>
    simp [pdfParse, h]

/-- C8 (amended): for every supported format and well-formed input,
`parse` returns metadata containing that format's required fields —
`page_count` for PDFs, the `layers` list for CAD drawings, the
sheet-name-to-range map for spreadsheets, and
project/elements/quantities/materials (with non-empty text) for building
models; text non-emptiness does not hold for every format (see the
counterexample: a CAD drawing without text-bearing entities parses to
empty text). -/
theorem parse_required_metadata_fields :
    (∀ (doc : PDFDoc) (tess : Nat → Str),
      dictGet (pdfParse doc tess).content.metadata "page_count"
        = some (MVal.n doc.pages.length))
    ∧ (∀ d : DXFDoc,
        dictGet (cadExtract d).metadata "layers"
          = some (MVal.list (d.layers.map MVal.s)))
    ∧ (∀ (f : IFCFile) (pc : ParsedContent), ifcParse f = Except.ok pc →
        (dictGet pc.metadata "project").isSome = true
        ∧ (dictGet pc.metadata "elements").isSome = true
        ∧ (dictGet pc.metadata "quantities").isSome = true
        ∧ (dictGet pc.metadata "materials").isSome = true
        ∧ pc.text ≠ [])
    ∧ (∀ wb : Workbook,
        dictGet (xlsxParse wb).metadata "sheet_map" = some (MVal.pairs wb.sheets)) := by
  refine ⟨?_, fun d => rfl, ?_, fun wb => rfl⟩
  · intro doc tess
    rw [pdfParse_metadata]
    rfl
  · intro f pc h
    rcases hp : f.projects with _ | ⟨project, rest⟩
    · unfold ifcParse at h
      rw [hp] at h
      exact absurd h (by simp)
    · unfold ifcParse at h
      rw [hp] at h
      simp only at h
      cases h
      refine ⟨rfl, rfl, rfl, rfl, ?_⟩
      exact pyJoin_cons_ne_nil _ _ _ (by simp)

/-- A one-project IFC file. -/
def towerIFC : IFCFile :=
  { projects := [{ name := "Tower".toList, description := MVal.null }]
  , elements := [], materials := [] }

/-- The content `IFCParser.parse` produces for `towerIFC`. -/
def towerContent : ParsedContent :=
  { text := "Project: Tower".toList
  , metadata :=
      [("project", MVal.pdict [("name", MVal.s "Tower".toList),
                               ("description", MVal.null)]),
       ("elements", MVal.list []),
       ("quantities", MVal.list []),
       ("materials", MVal.list [])] }

/-- C8 witness: the building-model clause applied to a concrete IFC
file. -/
theorem parse_required_metadata_fields_witness :
    (dictGet towerContent.metadata "project").isSome = true
    ∧ (dictGet towerContent.metadata "elements").isSome = true
    ∧ (dictGet towerContent.metadata "quantities").isSome = true
    ∧ (dictGet towerContent.metadata "materials").isSome = true
    ∧ towerContent.text ≠ [] :=
  parse_required_metadata_fields.2.2.1 towerIFC towerContent rfl

end BidOps
